import Mathlib

/-!
Verification of the qtp-diversity type plugin: a shallow embedding of
`qtp_diversity/validate.py` and `qtp_diversity/summary.py`.

External collaborators (the Qiita client, the skbio file parsers, the
renderers and the filesystem) are modelled as explicit parameters: a
parser is an `Except PyExn` value describing the outcome of reading the
concrete input file of the call, the metadata store is a function from a
template or analysis id to the list of its sample identifiers (only the
key set of the metadata mapping is ever consulted by this code), and a
renderer is a function from the resolved metadata to its outcome.
Python exceptions escaping a call are modelled by `Except.error`.
-/

deriving instance DecidableEq for Except

namespace QtpDiversity

/-- A Python exception escaping one of the embedded functions. -/
inductive PyExn where
  | keyError
  | indexError
  | typeError
  | runtimeError (msg : String)
deriving DecidableEq, Repr

/-- `qiita_client.ArtifactInfo(output_name, artifact_type, files)`:
the result descriptor built by the validators. -/
structure ArtifactInfo where
  output_name : Option String
  artifact_type : String
  files : List (String × String)
deriving DecidableEq, Repr

/-- The `files` mapping of a job: file-role label to list of paths, as
decoded from the JSON `parameters['files']`. -/
def FileGroup := List (String × List String)

/-- Dictionary lookup on a file group: `files[role]` when present. -/
def fgFind (files : FileGroup) (role : String) : Option (List String) :=
  match files with
  | [] => none
  | (r, ps) :: rest => if r = role then some ps else fgFind rest role

/-- The result triple every validator and orchestrator returns:
`(success, artifact info list or None, error message)`. -/
def VResult := Bool × Option (List ArtifactInfo) × String

instance : DecidableEq VResult := by
  unfold VResult
  infer_instance

/-- `files['plain_text'][0]`: raises `KeyError` when the role is absent
and `IndexError` when its list is empty. -/
def getPlain (files : FileGroup) : Except PyExn String :=
  match fgFind files "plain_text" with
  | none => .error .keyError
  | some [] => .error .indexError
  | some (fp :: _) => .ok fp

/-- `qza = files['qza'][0] if 'qza' in files else None`: the optional
companion archive, `IndexError` when the role maps to an empty list. -/
def getQzaOpt (files : FileGroup) : Except PyExn (Option String) :=
  match fgFind files "qza" with
  | none => .ok none
  | some [] => .error .indexError
  | some (q :: _) => .ok (some q)

/-- The trailing `(path, 'qza')` entry appended when the companion
archive is present. -/
def qzaFiles : Option String → List (String × String)
  | none => []
  | some q => [(q, "qza")]

/-- `_validate_distance_matrix(files, metadata, out_dir)`.  `dmRead` is
the outcome of `DistanceMatrix.read(dm_fp)`, abstracted to the id list
the parser returns (a raised parse error propagates).  The Python code
tests `not metadata_ids.issuperset(dm_ids)` and fails first; here the
condition is stated positively with the branches swapped. -/
def validate_distance_matrix (files : FileGroup)
    (dmRead : Except PyExn (List String)) (metadata : List String) :
    Except PyExn VResult :=
  match getPlain files with
  | .error e => .error e
  | .ok dm_fp =>
    match getQzaOpt files with
    | .error e => .error e
    | .ok dm_qza =>
      match dmRead with
      | .error e => .error e
      | .ok dmIds =>
        if dmIds.all metadata.contains then
          .ok (true,
               some [⟨none, "distance_matrix",
                      (dm_fp, "plain_text") :: qzaFiles dm_qza⟩], "")
        else
          .ok (false, none,
               "The distance matrix contain samples not present in the metadata")

/-- `_validate_ordination_results(files, metadata, out_dir)`.  `ordRead`
is the outcome of `OrdinationResults.read`, abstracted to the sample
index of its `samples` frame. -/
def validate_ordination_results (files : FileGroup)
    (ordRead : Except PyExn (List String)) (metadata : List String) :
    Except PyExn VResult :=
  match getPlain files with
  | .error e => .error e
  | .ok ord_fp =>
    match getQzaOpt files with
    | .error e => .error e
    | .ok ord_qza =>
      match ordRead with
      | .error e => .error e
      | .ok ordIds =>
        if ordIds.all metadata.contains then
          .ok (true,
               some [⟨none, "ordination_results",
                      (ord_fp, "plain_text") :: qzaFiles ord_qza⟩], "")
        else
          .ok (false, none,
               "The ordination results contain samples not present in the metadata")

/-- The characters Python `str.strip()` removes: ASCII whitespace. -/
def isPySpace (c : Char) : Bool :=
  c = ' ' || c = '\t' || c = '\n' || c = '\r' || c = '\x0b' || c = '\x0c'

/-- Drop leading Python whitespace from a character list. -/
def dropPySpace : List Char → List Char
  | [] => []
  | c :: cs => if isPySpace c then dropPySpace cs else c :: cs

/-- `line.strip()`: drop leading and trailing ASCII whitespace. -/
def pyStrip (s : List Char) : List Char :=
  (dropPySpace (dropPySpace s).reverse).reverse

/-- `s.split('\t')`: split a character list on tab, Python semantics
(the empty string yields one empty field). -/
def splitTab : List Char → List (List Char)
  | [] => [[]]
  | c :: cs =>
    let r := splitTab cs
    if c = '\t' then [] :: r
    else
      match r with
      | [] => [[c]]
      | h :: t => (c :: h) :: t

/-- `line.strip().split('\t')` on one line of the alpha-vector file. -/
def pyStripSplitTab (l : String) : List (List Char) :=
  splitTab (pyStrip l.data)

/-- The id-collecting loop of `_validate_alpha_vector`: for each line,
`vals = line.strip().split('\t')`; `none` when some line does not split
into exactly two fields (the Python loop returns the format error on the
first such line), otherwise the list of first fields (`vals[0]`). -/
def alphaScan : List String → Option (List String)
  | [] => some []
  | l :: ls =>
    match pyStripSplitTab l with
    | [a, _] => (alphaScan ls).map (String.mk a :: ·)
    | _ => none

/-- `_validate_alpha_vector(files, metadata, out_dir)`.  `fileLines` is
the outcome of opening the plain-text file, abstracted to its list of
lines; the first line is the header the code skips with `f.readline()`. -/
def validate_alpha_vector (files : FileGroup)
    (fileLines : Except PyExn (List String)) (metadata : List String) :
    Except PyExn VResult :=
  match getPlain files with
  | .error e => .error e
  | .ok alpha_fp =>
    match getQzaOpt files with
    | .error e => .error e
    | .ok alpha_qza =>
      match fileLines with
      | .error e => .error e
      | .ok lines =>
        match alphaScan lines.tail with
        | none => .ok (false, none, "The alpha vector format is incorrect")
        | some alpha_ids =>
          if alpha_ids.all metadata.contains then
            .ok (true,
                 some [⟨none, "alpha_vector",
                        (alpha_fp, "plain_text") :: qzaFiles alpha_qza⟩], "")
          else
            .ok (false, none,
                 "The alpha vector contains samples not present in the metadata")

/-- `'Tax' in line`: substring containment. -/
def strContainsSub (s pat : String) : Bool :=
  decide (List.IsInfix pat.toList s.toList)

/-- `_validate_feature_data(files, metadata, out_dir)`.  `firstLine` is
the outcome of `f.readline()` on the plain-text file.  The Python test
is `('Tax' not in line or 'ID' not in line) and line[0] != '>'` with
short-circuit evaluation: `line[0]` (an `IndexError` on an empty line)
is only reached when the first conjunct holds. -/
def validate_feature_data (files : FileGroup)
    (firstLine : Except PyExn String) (_metadata : List String) :
    Except PyExn VResult :=
  match getPlain files with
  | .error e => .error e
  | .ok fdt =>
    match getQzaOpt files with
    | .error e => .error e
    | .ok fdt_qza =>
      match firstLine with
      | .error e => .error e
      | .ok line =>
        let okRes : Except PyExn VResult :=
          .ok (true,
               some [⟨none, "FeatureData",
                      (fdt, "plain_text") :: qzaFiles fdt_qza⟩], "")
        if strContainsSub line "Tax" && strContainsSub line "ID" then
          okRes
        else
          match line.data with
          | [] => .error .indexError
          | c :: _ =>
            if c = '>' then okRes
            else .ok (false, none,
                      "The file header seems wrong \"" ++ line ++ "\"")

/-- `_validate_sample_data(files, metadata, out_dir)`: requires the
`qza` role to be present and non-empty (`if 'qza' not in files or not
files['qza']`). -/
def validate_sample_data (files : FileGroup) (_metadata : List String) :
    Except PyExn VResult :=
  match getPlain files with
  | .error e => .error e
  | .ok fdt =>
    match fgFind files "qza" with
    | none => .ok (false, none, "The artifact is missing a QZA file")
    | some [] => .ok (false, none, "The artifact is missing a QZA file")
    | some (q :: _) =>
      .ok (true,
           some [⟨none, "SampleData", [(fdt, "plain_text"), (q, "qza")]⟩], "")

/-- Ascending insertion for the string sort below, ordered as Python
sorts `str` (lexicographic by code point, which is `compare` on
`String`). -/
def insertStr (s : String) : List String → List String
  | [] => [s]
  | t :: ts =>
    if compare s t = Ordering.gt then t :: insertStr s ts else s :: t :: ts

/-- `sorted(keys)`: ascending lexicographic sort of the registry keys. -/
def sortStrs : List String → List String
  | [] => []
  | s :: ss => insertStr s (sortStrs ss)

/-- The fixed dispatch-failure message:
`"Unknown artifact type %s. Supported types: %s" % (tag, ", ".join(sorted(keys)))`. -/
def unknownTypeMsg (tag : String) (keys : List String) : String :=
  "Unknown artifact type " ++ tag ++ ". Supported types: " ++
    String.intercalate ", " (sortStrs keys)

/-- The keys of the `validators` dict of `validate`, in insertion
order. -/
def validatorKeys : List String :=
  ["distance_matrix", "ordination_results", "alpha_vector",
   "FeatureData", "SampleData"]

/-- The keys of `HTML_SUMMARIZERS` in `summary.py`, in insertion
order. -/
def summarizerKeys : List String :=
  ["distance_matrix", "ordination_results", "alpha_vector"]

/-- The job parameters consumed by `validate`: `parameters.get('template')`,
`parameters.get('analysis')`, `loads(parameters['files'])` and
`parameters['artifact_type']`. -/
structure Params where
  template : Option Nat
  analysis : Option Nat
  files : FileGroup
  artifact_type : String

/-- The outcomes of the external parsers on the input files of one
`validate` call, one per artifact type that reads its file. -/
structure ParseEnv where
  dmRead : Except PyExn (List String)
  ordRead : Except PyExn (List String)
  alphaLines : Except PyExn (List String)
  fdFirstLine : Except PyExn String

/-- The metadata-resolution step of `validate`:
`if prep_id is not None: ... elif analysis_id is not None: ... else:
return Missing metadata`.  `prepMeta`/`analysisMeta` model the Qiita
client, returning the sample-id key set of the fetched metadata. -/
def metaResolve (prepMeta analysisMeta : Nat → List String) :
    Option Nat → Option Nat → Option (List String)
  | some p, _ => some (prepMeta p)
  | none, some a => some (analysisMeta a)
  | none, none => none

/-- The dispatch `validators[a_type](files, metadata, out_dir)`;
only invoked after membership of `a_type` in `validatorKeys` has been
checked, so the final branch is exactly the `SampleData` entry. -/
def runValidator (env : ParseEnv) (a_type : String) (files : FileGroup)
    (metadata : List String) : Except PyExn VResult :=
  if a_type = "distance_matrix" then
    validate_distance_matrix files env.dmRead metadata
  else if a_type = "ordination_results" then
    validate_ordination_results files env.ordRead metadata
  else if a_type = "alpha_vector" then
    validate_alpha_vector files env.alphaLines metadata
  else if a_type = "FeatureData" then
    validate_feature_data files env.fdFirstLine metadata
  else
    validate_sample_data files metadata

/-- `HTML_SUMMARIZERS[a_type](files, metadata, out_dir)` inside
`validate`: `KeyError` when the type has no registered summarizer;
otherwise the renderer's outcome on the resolved metadata (`render`
models the registered renderer applied to this call's file group and
output directory). -/
def lookupSummarizer
    (render : String → List String → Except PyExn (String × Option String))
    (t : String) (metadata : List String) :
    Except PyExn (String × Option String) :=
  if summarizerKeys.contains t then render t metadata else .error .keyError

/-- The success branch of `validate`: append `(html_fp, 'html_summary')`
and, when the renderer produced a support directory (`is not None`),
`(html_dir, 'html_summary_dir')` to `ainfo[0].files`. -/
def appendSummaryFiles (ai : ArtifactInfo) (html_fp : String)
    (html_dir : Option String) : ArtifactInfo :=
  { ai with
    files := ai.files ++ (html_fp, "html_summary") ::
      (match html_dir with
       | some d => [(d, "html_summary_dir")]
       | none => []) }

/-- `validate(qclient, job_id, parameters, out_dir)`: the validation
orchestrator.  The type check precedes metadata resolution; on validator
success, the summarizer lookup and call happen before `ainfo[0]` is
indexed, so a missing summarizer raises `KeyError` (and `ainfo` being
`None` or `[]` would raise) exactly as in the Python source. -/
def validate (env : ParseEnv) (prepMeta analysisMeta : Nat → List String)
    (render : String → List String → Except PyExn (String × Option String))
    (params : Params) : Except PyExn VResult :=
  if validatorKeys.contains params.artifact_type then
    match metaResolve prepMeta analysisMeta params.template params.analysis with
    | none => .ok (false, none, "Missing metadata information")
    | some metadata =>
      match runValidator env params.artifact_type params.files metadata with
      | .error e => .error e
      | .ok (success, ainfo, error_msg) =>
        if success then
          match lookupSummarizer render params.artifact_type metadata with
          | .error e => .error e
          | .ok (html_fp, html_dir) =>
            match ainfo with
            | some (ai :: rest) =>
              .ok (success,
                   some (appendSummaryFiles ai html_fp html_dir :: rest),
                   error_msg)
            | some [] => .error .indexError
            | none => .error .typeError
        else
          .ok (success, ainfo, error_msg)
  else
    .ok (false, none, unknownTypeMsg params.artifact_type validatorKeys)

/-- The artifact record fetched by `generate_html_summary` from
`/qiita_db/artifacts/<id>/`: its type, prep-information list and
analysis id (its file listing is folded into the renderer outcome). -/
structure ArtifactRecord where
  artifact_type : String
  prep_information : List Nat
  analysis : Option Nat

/-- `dumps({'html': html_fp, 'dir': html_dir})`: the JSON object
persisted when a support directory exists (keys keep insertion order). -/
def dumpsHtmlDir (h d : String) : String :=
  "\x7b\"html\": \"" ++ h ++ "\", \"dir\": \"" ++ d ++ "\"\x7d"

/-- Metadata resolution of `generate_html_summary`:
`if preps: ... elif analysis_id is not None: ... else: Missing metadata`
(`preps` is truthy iff non-empty; `preps[0]` is used). -/
def metaResolveSummary (prepMeta analysisMeta : Nat → List String)
    (preps : List Nat) (analysis : Option Nat) : Option (List String) :=
  match preps with
  | p :: _ => some (prepMeta p)
  | [] => analysis.map analysisMeta

/-- `generate_html_summary(qclient, job_id, parameters, out_dir)`.
`render` is the outcome of `HTML_SUMMARIZERS[atype](files, metadata,
out_dir)` as a function of the resolved metadata; `patchExn` models
`qclient.patch` on the persisted value: `none` when the call returns,
`some (str(e))` when it raises.  Note the truthiness test
`if html_dir:` (not `is not None`) selecting the persisted shape. -/
def generate_html_summary (art : ArtifactRecord)
    (prepMeta analysisMeta : Nat → List String)
    (render : List String → Except PyExn (String × Option String))
    (patchExn : String → Option String) : Except PyExn VResult :=
  if summarizerKeys.contains art.artifact_type then
    match metaResolveSummary prepMeta analysisMeta
        art.prep_information art.analysis with
    | none => .ok (false, none, "Missing metadata information")
    | some metadata =>
      match render metadata with
      | .error e => .error e
      | .ok (html_fp, html_dir) =>
        let patch_val :=
          match html_dir with
          | some d => if d.isEmpty then html_fp else dumpsHtmlDir html_fp d
          | none => html_fp
        match patchExn patch_val with
        | none => .ok (true, none, "")
        | some m => .ok (false, none, m)
  else
    .ok (false, none, unknownTypeMsg art.artifact_type summarizerKeys)

/-- Modelled from the spec: the legacy Manifest Checker of spec section 4.1
(`check(base_dir, manifest) -> (ok, message)`) and the legacy validators
built on it (`_validate_rarefaction_curves`, `_validate_taxa_summary`,
the directory-based `_validate_distance_matrix`) are not present under
`src/`; only the reference tests import them.  Per the spec, each
(pattern, message) entry is resolved in order by glob expansion
(abstracted here as `glob`), a pattern fails when it expands to zero
matches or its first match does not exist (`pexists`), the first failing
entry's message is returned immediately without evaluating later
entries, and `(true, "")` is returned when every entry resolves. -/
def check (glob : String → List String) (pexists : String → Bool) :
    List (String × String) → Bool × String
  | [] => (true, "")
  | (pat, msg) :: rest =>
    match glob pat with
    | [] => (false, msg)
    | m :: _ => if pexists m then check glob pexists rest else (false, msg)

/-- Modelled from the spec: a pattern "resolves to an existing path"
when its glob expansion is non-empty and the first match exists. -/
def resolves (glob : String → List String) (pexists : String → Bool)
    (pat : String) : Bool :=
  match glob pat with
  | [] => false
  | m :: _ => pexists m

/-- Modelled from the spec: the manifest of the legacy
`_validate_rarefaction_curves`, absent from `src/`; the entry order is
the unique one consistent with the first-failure messages the reference
test expects over its progressively emptied directory states. -/
def rarefaction_curves_manifest : List (String × String) :=
  [("log_*.txt", "Missing log file"),
   ("alpha_div_collated", "Missing alpha_div_collated directory"),
   ("alpha_rarefaction_plots", "Missing alpha_rarefaction_plots directory"),
   ("alpha_div_collated/*.txt", "Empty alpha_div_collated directory"),
   ("alpha_rarefaction_plots/rarefaction_plots.html",
    "Missing rarefaction plots HTML file"),
   ("alpha_rarefaction_plots/average_plots",
    "Missing average plots directory"),
   ("alpha_rarefaction_plots/average_plots/*.png",
    "Empty average plots directory")]

/-- The concrete files the reference rarefaction test creates, as glob
candidates: each wildcard pattern matches exactly the one file the test
builds, literal patterns match themselves. -/
def rarefactionGlobTargets (pat : String) : List String :=
  if pat = "log_*.txt" then
    ["log_SOMEDATE.txt"]
  else if pat = "alpha_div_collated/*.txt" then
    ["alpha_div_collated/PD_whole_tree.txt"]
  else if pat = "alpha_rarefaction_plots/average_plots/*.png" then
    ["alpha_rarefaction_plots/average_plots/image.png"]
  else
    [pat]

/-- Glob over a filesystem state `fs` (the set of existing paths in the
test's temporary directory). -/
def testGlob (fs : List String) (pat : String) : List String :=
  (rarefactionGlobTargets pat).filter fs.contains

/-- Existence over a filesystem state. -/
def testPathHolds (fs : List String) (p : String) : Bool :=
  fs.contains p

/-- The fully built rarefaction directory of the reference test. -/
def rarefactionFsFull : List String :=
  ["log_SOMEDATE.txt",
   "alpha_div_collated",
   "alpha_div_collated/PD_whole_tree.txt",
   "alpha_rarefaction_plots",
   "alpha_rarefaction_plots/rarefaction_plots.html",
   "alpha_rarefaction_plots/average_plots",
   "alpha_rarefaction_plots/average_plots/image.png"]

/-- State after `remove(pngfp)`: `average_plots` exists but is empty. -/
def rarefactionFsNoPng : List String :=
  ["log_SOMEDATE.txt",
   "alpha_div_collated",
   "alpha_div_collated/PD_whole_tree.txt",
   "alpha_rarefaction_plots",
   "alpha_rarefaction_plots/rarefaction_plots.html",
   "alpha_rarefaction_plots/average_plots"]

/-- State after additionally `rmtree(apdp)`: `average_plots` is gone. -/
def rarefactionFsNoAvg : List String :=
  ["log_SOMEDATE.txt",
   "alpha_div_collated",
   "alpha_div_collated/PD_whole_tree.txt",
   "alpha_rarefaction_plots",
   "alpha_rarefaction_plots/rarefaction_plots.html"]

/-! Theorems. -/

theorem check_eq_true_iff (glob : String → List String)
    (pexists : String → Bool) (M : List (String × String)) :
    check glob pexists M = (true, "") ↔
      ∀ pm ∈ M, resolves glob pexists pm.1 = true := by
  induction M with
  | nil => simp [check]
  | cons hd tl ih =>
    obtain ⟨pat, msg⟩ := hd
    simp only [check]
    cases hg : glob pat with
    | nil =>
      simp only [List.mem_cons]
      constructor
      · intro h
        exact absurd h (by simp)
      · intro h
        have := h (pat, msg) (Or.inl rfl)
        simp [resolves, hg] at this
    | cons m ms =>
      by_cases hp : pexists m = true
      · simp only [hp, if_true, ih, List.mem_cons]
        constructor
        · intro h pm hpm
          rcases hpm with rfl | hpm
          · simp [resolves, hg, hp]
          · exact h pm hpm
        · intro h pm hpm
          exact h pm (Or.inr hpm)
      · simp only [Bool.not_eq_true] at hp
        simp only [hp, if_false]
        constructor
        · intro h
          exact absurd h (by simp)
        · intro h
          have := h (pat, msg) (by simp)
          simp [resolves, hg, hp] at this

theorem check_first_fail (glob : String → List String)
    (pexists : String → Bool) (M1 : List (String × String))
    (pat msg : String) (M2 : List (String × String))
    (h1 : ∀ pm ∈ M1, resolves glob pexists pm.1 = true)
    (h2 : resolves glob pexists pat = false) :
    check glob pexists (M1 ++ (pat, msg) :: M2) = (false, msg) := by
  induction M1 with
  | nil =>
    simp only [List.nil_append, check]
    cases hg : glob pat with
    | nil => rfl
    | cons m ms =>
      simp only [resolves, hg] at h2
      simp [h2]
  | cons hd tl ih =>
    obtain ⟨p0, m0⟩ := hd
    have hr := h1 (p0, m0) (by simp)
    simp only [List.cons_append, check]
    cases hg : glob p0 with
    | nil => simp [resolves, hg] at hr
    | cons m ms =>
      simp only [resolves, hg] at hr
      simp only [hr, if_true]
      exact ih fun pm hpm => h1 pm (by simp [hpm])

/-- Claim C6: the manifest checker returns the message of the first
entry whose pattern does not resolve to an existing path, evaluating no
later entries (the result is the same for every continuation `M2`), and
returns `(true, "")` iff every entry resolves; on the reference
rarefaction-curves states it reports "Empty average plots directory"
before "Missing average plots directory", and "Missing log file" on the
fully emptied directory, as in the reference test ordering. -/
theorem c6_manifest_first_failure :
    (∀ (glob : String → List String) (pexists : String → Bool)
        (M : List (String × String)),
        check glob pexists M = (true, "") ↔
          ∀ pm ∈ M, resolves glob pexists pm.1 = true) ∧
    (∀ (glob : String → List String) (pexists : String → Bool)
        (M1 : List (String × String)) (pat msg : String)
        (M2 : List (String × String)),
        (∀ pm ∈ M1, resolves glob pexists pm.1 = true) →
        resolves glob pexists pat = false →
        check glob pexists (M1 ++ (pat, msg) :: M2) = (false, msg)) ∧
    check (testGlob rarefactionFsFull) (testPathHolds rarefactionFsFull)
      rarefaction_curves_manifest = (true, "") ∧
    check (testGlob rarefactionFsNoPng) (testPathHolds rarefactionFsNoPng)
      rarefaction_curves_manifest = (false, "Empty average plots directory") ∧
    check (testGlob rarefactionFsNoAvg) (testPathHolds rarefactionFsNoAvg)
      rarefaction_curves_manifest = (false, "Missing average plots directory") ∧
    check (testGlob []) (testPathHolds [])
      rarefaction_curves_manifest = (false, "Missing log file") :=
  ⟨check_eq_true_iff, check_first_fail,
   by decide, by decide, by decide, by decide⟩

/-- Witness for C6: the first-failure part applied to the no-average-plots
state, with the manifest split around its first failing entry. -/
theorem c6_manifest_first_failure_witness :
    check (testGlob rarefactionFsNoAvg) (testPathHolds rarefactionFsNoAvg)
      ([("log_*.txt", "Missing log file"),
        ("alpha_div_collated", "Missing alpha_div_collated directory"),
        ("alpha_rarefaction_plots",
         "Missing alpha_rarefaction_plots directory"),
        ("alpha_div_collated/*.txt", "Empty alpha_div_collated directory"),
        ("alpha_rarefaction_plots/rarefaction_plots.html",
         "Missing rarefaction plots HTML file")] ++
       ("alpha_rarefaction_plots/average_plots",
        "Missing average plots directory") ::
       [("alpha_rarefaction_plots/average_plots/*.png",
         "Empty average plots directory")]) =
      (false, "Missing average plots directory") :=
  c6_manifest_first_failure.2.1 _ _ _ _ _ _ (by decide) (by decide)

/-- Claim C1: with the parsed matrix ids a subset of the metadata keys,
`_validate_distance_matrix` succeeds with exactly one `ArtifactInfo`
listing `(dm_path, 'plain_text')` plus `(qza_path, 'qza')` exactly when
a `qza` role is present; with some id absent it fails softly with
exactly "The distance matrix contain samples not present in the
metadata". -/
theorem c1_distance_matrix_validation (files : FileGroup) (dm_fp : String)
    (more : List String) (dmIds metadata : List String)
    (hpt : fgFind files "plain_text" = some (dm_fp :: more))
    (hq : fgFind files "qza" = none ∨
          ∃ q qs, fgFind files "qza" = some (q :: qs)) :
    (dmIds.all metadata.contains = true →
       validate_distance_matrix files (.ok dmIds) metadata =
         .ok (true, some [⟨none, "distance_matrix",
           (dm_fp, "plain_text") ::
             (match fgFind files "qza" with
              | some (q :: _) => [(q, "qza")]
              | _ => [])⟩], "")) ∧
    (dmIds.all metadata.contains = false →
       validate_distance_matrix files (.ok dmIds) metadata =
         .ok (false, none,
              "The distance matrix contain samples not present in the metadata")) := by
  rcases hq with hq | ⟨q, qs, hq⟩ <;>
    exact ⟨fun hall => by
        simp [validate_distance_matrix, getPlain, getQzaOpt, qzaFiles, hpt,
              hq, hall],
      fun hall => by
        simp [validate_distance_matrix, getPlain, getQzaOpt, hpt, hq, hall]⟩

/-- Witness for C1: a three-sample matrix fully covered by a superset
metadata set succeeds with the plain-text and qza files listed. -/
theorem c1_distance_matrix_validation_witness :
    validate_distance_matrix
        [("plain_text", ["dm.txt"]), ("qza", ["dm.qza"])]
        (.ok ["s1", "s2", "s3"]) ["s1", "s2", "s3", "s4"] =
      .ok (true, some [⟨none, "distance_matrix",
        [("dm.txt", "plain_text"), ("dm.qza", "qza")]⟩], "") ∧
    validate_distance_matrix [("plain_text", ["dm.txt"])]
        (.ok ["s1", "s9"]) ["s1"] =
      .ok (false, none,
           "The distance matrix contain samples not present in the metadata") :=
  ⟨(c1_distance_matrix_validation
      [("plain_text", ["dm.txt"]), ("qza", ["dm.qza"])] "dm.txt" []
      ["s1", "s2", "s3"] ["s1", "s2", "s3", "s4"] (by decide)
      (Or.inr ⟨"dm.qza", [], by decide⟩)).1 (by decide),
   (c1_distance_matrix_validation [("plain_text", ["dm.txt"])] "dm.txt" []
      ["s1", "s9"] ["s1"] (by decide) (Or.inl (by decide))).2 (by decide)⟩

theorem alphaScan_eq_none_of_bad (lines : List String) (l : String)
    (hl : l ∈ lines) (hb : (pyStripSplitTab l).length ≠ 2) :
    alphaScan lines = none := by
  induction lines with
  | nil => cases hl
  | cons hd tl ih =>
    rcases List.mem_cons.mp hl with rfl | hl2
    · cases hsp : pyStripSplitTab l with
      | nil => simp [alphaScan, hsp]
      | cons a as =>
        cases as with
        | nil => simp [alphaScan, hsp]
        | cons b bs =>
          cases bs with
          | nil => exact absurd (by simp [hsp]) hb
          | cons c cs => simp [alphaScan, hsp]
    · have htl := ih hl2
      cases hsp : pyStripSplitTab hd with
      | nil => simp [alphaScan, hsp]
      | cons a as =>
        cases as with
        | nil => simp [alphaScan, hsp]
        | cons b bs =>
          cases bs with
          | nil => simp [alphaScan, hsp, htl]
          | cons c cs => simp [alphaScan, hsp]

/-- Claim C7: an alpha-vector file with a line after the header that
does not split into exactly two tab-separated fields fails softly with
exactly "The alpha vector format is incorrect", for every metadata set
(so before, and instead of, any identifier-subset check). -/
theorem c7_alpha_vector_malformed (files : FileGroup) (fp : String)
    (more lines metadata : List String) (l : String)
    (hpt : fgFind files "plain_text" = some (fp :: more))
    (hq : fgFind files "qza" = none ∨
          ∃ q qs, fgFind files "qza" = some (q :: qs))
    (hl : l ∈ lines.tail) (hb : (pyStripSplitTab l).length ≠ 2) :
    validate_alpha_vector files (.ok lines) metadata =
      .ok (false, none, "The alpha vector format is incorrect") := by
  have hs := alphaScan_eq_none_of_bad lines.tail l hl hb
  rcases hq with hq | ⟨q, qs, hq⟩ <;>
    simp [validate_alpha_vector, getPlain, getQzaOpt, hpt, hq, hs]

/-- Witness for C7: a malformed second line fails the format check even
though the metadata does not cover its sample id. -/
theorem c7_alpha_vector_malformed_witness :
    validate_alpha_vector [("plain_text", ["alpha.txt"])]
        (.ok ["#SampleID\talpha", "s1 with no tab"]) ["zzz"] =
      .ok (false, none, "The alpha vector format is incorrect") :=
  c7_alpha_vector_malformed [("plain_text", ["alpha.txt"])] "alpha.txt"
    [] ["#SampleID\talpha", "s1 with no tab"] ["zzz"] "s1 with no tab"
    (by decide) (Or.inl (by decide)) (by decide) (by decide)

/-- Claim C8: `_validate_sample_data` fails softly with "The artifact is
missing a QZA file" when the `qza` role is absent or empty, and succeeds
with both files listed when it is present; for the four other artifact
types the absence of the `qza` role alone never causes failure (their
validators succeed without it whenever their own checks pass). -/
theorem c8_sample_data_requires_qza :
    (∀ (files : FileGroup) (fdt : String) (more : List String)
        (metadata : List String),
        fgFind files "plain_text" = some (fdt :: more) →
        (fgFind files "qza" = none ∨ fgFind files "qza" = some []) →
        validate_sample_data files metadata =
          .ok (false, none, "The artifact is missing a QZA file")) ∧
    (∀ (files : FileGroup) (fdt : String) (more : List String)
        (q : String) (qs : List String) (metadata : List String),
        fgFind files "plain_text" = some (fdt :: more) →
        fgFind files "qza" = some (q :: qs) →
        validate_sample_data files metadata =
          .ok (true, some [⟨none, "SampleData",
            [(fdt, "plain_text"), (q, "qza")]⟩], "")) ∧
    (∀ (files : FileGroup) (fp : String) (more dmIds metadata : List String),
        fgFind files "plain_text" = some (fp :: more) →
        fgFind files "qza" = none →
        dmIds.all metadata.contains = true →
        validate_distance_matrix files (.ok dmIds) metadata =
          .ok (true, some [⟨none, "distance_matrix",
            [(fp, "plain_text")]⟩], "")) ∧
    (∀ (files : FileGroup) (fp : String) (more ordIds metadata : List String),
        fgFind files "plain_text" = some (fp :: more) →
        fgFind files "qza" = none →
        ordIds.all metadata.contains = true →
        validate_ordination_results files (.ok ordIds) metadata =
          .ok (true, some [⟨none, "ordination_results",
            [(fp, "plain_text")]⟩], "")) ∧
    (∀ (files : FileGroup) (fp : String) (more lines ids metadata : List String),
        fgFind files "plain_text" = some (fp :: more) →
        fgFind files "qza" = none →
        alphaScan lines.tail = some ids →
        ids.all metadata.contains = true →
        validate_alpha_vector files (.ok lines) metadata =
          .ok (true, some [⟨none, "alpha_vector",
            [(fp, "plain_text")]⟩], "")) ∧
    (∀ (files : FileGroup) (fp : String) (more : List String) (line : String)
        (metadata : List String),
        fgFind files "plain_text" = some (fp :: more) →
        fgFind files "qza" = none →
        strContainsSub line "Tax" = true →
        strContainsSub line "ID" = true →
        validate_feature_data files (.ok line) metadata =
          .ok (true, some [⟨none, "FeatureData",
            [(fp, "plain_text")]⟩], "")) := by
  refine ⟨?_, ?_, ?_, ?_, ?_, ?_⟩
  · intro files fdt more metadata hpt hq
    rcases hq with hq | hq <;>
      simp [validate_sample_data, getPlain, hpt, hq]
  · intro files fdt more q qs metadata hpt hq
    simp [validate_sample_data, getPlain, hpt, hq]
  · intro files fp more dmIds metadata hpt hq hall
    simp [validate_distance_matrix, getPlain, getQzaOpt, qzaFiles, hpt, hq,
          hall]
  · intro files fp more ordIds metadata hpt hq hall
    simp [validate_ordination_results, getPlain, getQzaOpt, qzaFiles, hpt,
          hq, hall]
  · intro files fp more lines ids metadata hpt hq hscan hall
    simp [validate_alpha_vector, getPlain, getQzaOpt, qzaFiles, hpt, hq,
          hscan, hall]
  · intro files fp more line metadata hpt hq htax hid
    simp [validate_feature_data, getPlain, getQzaOpt, qzaFiles, hpt, hq,
          htax, hid]

/-- Witness for C8: a SampleData group without the qza role fails, a
group with it succeeds, and a FeatureData group without it succeeds. -/
theorem c8_sample_data_requires_qza_witness :
    validate_sample_data [("plain_text", ["sd.txt"])] [] =
      .ok (false, none, "The artifact is missing a QZA file") ∧
    validate_sample_data [("plain_text", ["sd.txt"]), ("qza", ["sd.qza"])] [] =
      .ok (true, some [⟨none, "SampleData",
        [("sd.txt", "plain_text"), ("sd.qza", "qza")]⟩], "") ∧
    validate_feature_data [("plain_text", ["fd.txt"])]
        (.ok "Feature ID\tTaxonomy") [] =
      .ok (true, some [⟨none, "FeatureData", [("fd.txt", "plain_text")]⟩], "") :=
  ⟨c8_sample_data_requires_qza.1 _ "sd.txt" [] [] (by decide)
     (Or.inl (by decide)),
   c8_sample_data_requires_qza.2.1 _ "sd.txt" [] "sd.qza" [] [] (by decide)
     (by decide),
   c8_sample_data_requires_qza.2.2.2.2.2 _ "fd.txt" [] "Feature ID\tTaxonomy"
     [] (by decide) (by decide) (by decide) (by decide)⟩

/-- Claim C2 (amended): unknown artifact types fail softly in both
orchestrators with the fixed sorted-list message; the summary registry
holds only three types, so resolving "BIOM" against it yields
"... Supported types: alpha_vector, distance_matrix, ordination_results"
(the validator registry yields the five-type list). -/
theorem c2_unknown_type_message :
    (∀ (env : ParseEnv) (prepMeta analysisMeta : Nat → List String)
        (render : String → List String →
          Except PyExn (String × Option String)) (params : Params),
        params.artifact_type ∉ validatorKeys →
        validate env prepMeta analysisMeta render params =
          .ok (false, none,
               unknownTypeMsg params.artifact_type validatorKeys)) ∧
    (∀ (art : ArtifactRecord) (prepMeta analysisMeta : Nat → List String)
        (render : List String → Except PyExn (String × Option String))
        (patchExn : String → Option String),
        art.artifact_type ∉ summarizerKeys →
        generate_html_summary art prepMeta analysisMeta render patchExn =
          .ok (false, none,
               unknownTypeMsg art.artifact_type summarizerKeys)) ∧
    unknownTypeMsg "BIOM" summarizerKeys =
      "Unknown artifact type BIOM. Supported types: alpha_vector, distance_matrix, ordination_results" ∧
    unknownTypeMsg "BIOM" validatorKeys =
      "Unknown artifact type BIOM. Supported types: FeatureData, SampleData, alpha_vector, distance_matrix, ordination_results" := by
  refine ⟨?_, ?_, by decide, by decide⟩
  · intro env prepMeta analysisMeta render params h
    simp [validate, h]
  · intro art prepMeta analysisMeta render patchExn h
    simp [generate_html_summary, h]

/-- Counterexample for C2 as stated: against the summary-renderer
registry the "BIOM" message does not list FeatureData, because
`HTML_SUMMARIZERS` has no FeatureData entry. -/
theorem c2_unknown_type_message_counterexample :
    generate_html_summary ⟨"BIOM", [], none⟩ (fun _ => []) (fun _ => [])
        (fun _ => .error .keyError) (fun _ => none) =
      .ok (false, none,
        "Unknown artifact type BIOM. Supported types: alpha_vector, distance_matrix, ordination_results") ∧
    ("Unknown artifact type BIOM. Supported types: alpha_vector, distance_matrix, ordination_results" : String) ≠
      "Unknown artifact type BIOM. Supported types: FeatureData, alpha_vector, distance_matrix, ordination_results" :=
  ⟨by decide, by decide⟩

/-- Witness for C2 (amended): a concrete validate call with the
unregistered tag "BIOM". -/
theorem c2_unknown_type_message_witness :
    validate ⟨.ok [], .ok [], .ok [], .ok ""⟩ (fun _ => []) (fun _ => [])
        (fun _ _ => .error .keyError) ⟨some 1, none, [], "BIOM"⟩ =
      .ok (false, none, unknownTypeMsg "BIOM" validatorKeys) :=
  c2_unknown_type_message.1 _ _ _ _ _ (by decide)

/-- Claim C3 (amended): a validate call with a supported artifact type
and neither `template` nor `analysis` set fails softly with exactly
"Missing metadata information", regardless of file contents, parser
outcomes and renderers; for unsupported types the unknown-type message
is returned instead, since the registry check precedes metadata
resolution. -/
theorem c3_missing_metadata (env : ParseEnv)
    (prepMeta analysisMeta : Nat → List String)
    (render : String → List String → Except PyExn (String × Option String))
    (files : FileGroup) (a_type : String) (h : a_type ∈ validatorKeys) :
    validate env prepMeta analysisMeta render ⟨none, none, files, a_type⟩ =
      .ok (false, none, "Missing metadata information") := by
  simp [validate, metaResolve, h]

/-- Counterexample for C3 as stated: with an unsupported tag and no
metadata source, the message is the unknown-type one, not
"Missing metadata information". -/
theorem c3_missing_metadata_counterexample :
    validate ⟨.ok [], .ok [], .ok [], .ok ""⟩ (fun _ => []) (fun _ => [])
        (fun _ _ => .error .keyError) ⟨none, none, [], "BIOM"⟩ =
      .ok (false, none,
        "Unknown artifact type BIOM. Supported types: FeatureData, SampleData, alpha_vector, distance_matrix, ordination_results") ∧
    ("Unknown artifact type BIOM. Supported types: FeatureData, SampleData, alpha_vector, distance_matrix, ordination_results" : String) ≠
      "Missing metadata information" :=
  ⟨by decide, by decide⟩

/-- Witness for C3 (amended): a supported type with no metadata source. -/
theorem c3_missing_metadata_witness :
    validate ⟨.ok [], .ok [], .ok [], .ok ""⟩ (fun _ => []) (fun _ => [])
        (fun _ _ => .error .keyError)
        ⟨none, none, [("plain_text", ["dm.txt"])], "distance_matrix"⟩ =
      .ok (false, none, "Missing metadata information") :=
  c3_missing_metadata _ _ _ _ _ _ (by decide)

/-- Claim C9 (amended): metadata resolution fails, with "Missing
metadata information", exactly when neither source is set; when both
are set it does not fail — the prep-template source takes precedence
(`template` in `validate`, `prep_information` in
`generate_html_summary`), the analysis id being ignored. -/
theorem c9_metadata_source_resolution
    (prepMeta analysisMeta : Nat → List String) :
    (∀ (env : ParseEnv)
        (render : String → List String →
          Except PyExn (String × Option String))
        (files : FileGroup) (a_type : String) (p : Nat) (an : Option Nat),
        validate env prepMeta analysisMeta render ⟨some p, an, files, a_type⟩ =
          validate env prepMeta analysisMeta render
            ⟨some p, none, files, a_type⟩) ∧
    (∀ (env : ParseEnv)
        (render : String → List String →
          Except PyExn (String × Option String))
        (files : FileGroup) (a_type : String),
        a_type ∈ validatorKeys →
        validate env prepMeta analysisMeta render ⟨none, none, files, a_type⟩ =
          .ok (false, none, "Missing metadata information")) ∧
    (∀ (atype : String)
        (render : List String → Except PyExn (String × Option String))
        (patchExn : String → Option String) (p : Nat) (preps : List Nat)
        (an : Option Nat),
        generate_html_summary ⟨atype, p :: preps, an⟩ prepMeta analysisMeta
            render patchExn =
          generate_html_summary ⟨atype, p :: preps, none⟩ prepMeta
            analysisMeta render patchExn) ∧
    (∀ (atype : String)
        (render : List String → Except PyExn (String × Option String))
        (patchExn : String → Option String),
        atype ∈ summarizerKeys →
        generate_html_summary ⟨atype, [], none⟩ prepMeta analysisMeta
            render patchExn =
          .ok (false, none, "Missing metadata information")) := by
  refine ⟨fun _ _ _ _ _ _ => rfl, ?_, fun _ _ _ _ _ _ => rfl, ?_⟩
  · intro env render files a_type h
    simp [validate, metaResolve, h]
  · intro atype render patchExn h
    simp [generate_html_summary, metaResolveSummary, h]

/-- Counterexample for C9 as stated: a validate call with BOTH the
prep-template and the analysis reference set succeeds end to end —
metadata resolution does not fail when both sources are set. -/
theorem c9_metadata_source_resolution_counterexample :
    validate ⟨.ok ["s1"], .ok [], .ok [], .ok ""⟩ (fun _ => ["s1"])
        (fun _ => []) (fun _ _ => .ok ("index.html", none))
        ⟨some 1, some 2, [("plain_text", ["dm.txt"])], "distance_matrix"⟩ =
      .ok (true, some [⟨none, "distance_matrix",
        [("dm.txt", "plain_text"), ("index.html", "html_summary")]⟩], "") :=
  by decide

/-- Witness for C9 (amended): the neither-source branch at a concrete
supported type. -/
theorem c9_metadata_source_resolution_witness :
    validate ⟨.ok [], .ok [], .ok [], .ok ""⟩ (fun _ => ["s1"]) (fun _ => [])
        (fun _ _ => .error .keyError)
        ⟨none, none, [("plain_text", ["a.txt"])], "alpha_vector"⟩ =
      .ok (false, none, "Missing metadata information") :=
  (c9_metadata_source_resolution _ _).2.1 _ _ _ _ (by decide)

/-- Claim C10: the summarizer registry holds no FeatureData or
SampleData entry, so whenever the type-specific validator for these two
types succeeds, `validate` raises an uncaught `KeyError` at the
`HTML_SUMMARIZERS[a_type]` lookup, and `validate` never returns a
success result for them. -/
theorem c10_no_summarizer_for_feature_sample (env : ParseEnv)
    (prepMeta analysisMeta : Nat → List String)
    (render : String → List String → Except PyExn (String × Option String))
    (params : Params)
    (h : params.artifact_type = "FeatureData" ∨
         params.artifact_type = "SampleData") :
    params.artifact_type ∉ summarizerKeys ∧
    (∀ (metadata : List String) (ainfo : Option (List ArtifactInfo))
        (msg : String),
        metaResolve prepMeta analysisMeta params.template params.analysis =
          some metadata →
        runValidator env params.artifact_type params.files metadata =
          .ok (true, ainfo, msg) →
        validate env prepMeta analysisMeta render params =
          .error .keyError) ∧
    (∀ r : VResult,
        validate env prepMeta analysisMeta render params = .ok r →
        r.1 = false) := by
  obtain ⟨template, analysis, files, a_type⟩ := params
  simp only at h
  have hsum : a_type ∉ summarizerKeys := by
    rcases h with h | h <;> subst h <;> decide
  have hval : a_type ∈ validatorKeys := by
    rcases h with h | h <;> subst h <;> decide
  refine ⟨hsum, ?_, ?_⟩
  · intro metadata ainfo msg hm hv
    simp only at hm hv
    simp [validate, hval, hm, hv, lookupSummarizer, hsum]
  · intro r hr
    cases hm : metaResolve prepMeta analysisMeta template analysis with
    | none =>
      have hv2 : validate env prepMeta analysisMeta render
          ⟨template, analysis, files, a_type⟩ =
          .ok (false, none, "Missing metadata information") := by
        simp [validate, hval, hm]
      rw [hv2] at hr
      cases hr
      rfl
    | some metadata =>
      cases hv : runValidator env a_type files metadata with
      | error e =>
        have hv2 : validate env prepMeta analysisMeta render
            ⟨template, analysis, files, a_type⟩ = .error e := by
          simp [validate, hval, hm, hv]
        rw [hv2] at hr
        cases hr
      | ok res =>
        obtain ⟨success, ainfo, msg⟩ := res
        cases success with
        | false =>
          have hv2 : validate env prepMeta analysisMeta render
              ⟨template, analysis, files, a_type⟩ =
              .ok (false, ainfo, msg) := by
            simp [validate, hval, hm, hv]
          rw [hv2] at hr
          cases hr
          rfl
        | true =>
          have hv2 : validate env prepMeta analysisMeta render
              ⟨template, analysis, files, a_type⟩ = .error .keyError := by
            simp [validate, hval, hm, hv, lookupSummarizer, hsum]
          rw [hv2] at hr
          cases hr

/-- Witness for C10: a FeatureData group whose validator succeeds makes
`validate` raise `KeyError`. -/
theorem c10_no_summarizer_for_feature_sample_witness :
    validate ⟨.ok [], .ok [], .ok [], .ok "Feature ID\tTaxonomy"⟩
        (fun _ => ["s1"]) (fun _ => [])
        (fun _ _ => .ok ("index.html", none))
        ⟨some 1, none, [("plain_text", ["fd.txt"])], "FeatureData"⟩ =
      .error .keyError :=
  (c10_no_summarizer_for_feature_sample _ _ _ _ _ (Or.inl rfl)).2.1 ["s1"]
    (some [⟨none, "FeatureData", [("fd.txt", "plain_text")]⟩]) "" (by decide)
    (by decide)

theorem mem_validator_of_mem_summarizer (t : String)
    (h : t ∈ summarizerKeys) : t ∈ validatorKeys := by
  simp only [summarizerKeys, List.mem_cons, List.not_mem_nil, or_false] at h
  rcases h with rfl | rfl | rfl <;> decide

/-- Claim C4: when the type-specific validator succeeds, `validate`
invokes the summary renderer registered for the same artifact type on
the same metadata and appends `(html_path, 'html_summary')` — plus
`(support_dir, 'html_summary_dir')` when the renderer returned a
non-None auxiliary directory — to the returned ArtifactInfo's file
list; an exception raised by the renderer propagates out of `validate`
instead of becoming a soft failure. -/
theorem c4_fused_validate_then_summarize (env : ParseEnv)
    (prepMeta analysisMeta : Nat → List String)
    (render : String → List String → Except PyExn (String × Option String))
    (params : Params) (metadata : List String) (ai : ArtifactInfo)
    (rest : List ArtifactInfo) (msg : String)
    (ht : params.artifact_type ∈ summarizerKeys)
    (hm : metaResolve prepMeta analysisMeta params.template params.analysis =
          some metadata)
    (hv : runValidator env params.artifact_type params.files metadata =
          .ok (true, some (ai :: rest), msg)) :
    (∀ (html_fp : String) (html_dir : Option String),
        render params.artifact_type metadata = .ok (html_fp, html_dir) →
        validate env prepMeta analysisMeta render params =
          .ok (true, some ({ ai with
            files := ai.files ++ (html_fp, "html_summary") ::
              (match html_dir with
               | some d => [(d, "html_summary_dir")]
               | none => []) } :: rest), msg)) ∧
    (∀ e : PyExn,
        render params.artifact_type metadata = .error e →
        validate env prepMeta analysisMeta render params = .error e) := by
  have hval := mem_validator_of_mem_summarizer _ ht
  constructor
  · intro html_fp html_dir hrender
    simp [validate, hval, hm, hv, lookupSummarizer, ht, hrender,
          appendSummaryFiles]
  · intro e hrender
    simp [validate, hval, hm, hv, lookupSummarizer, ht, hrender]

/-- Witness for C4: a distance-matrix validation whose renderer returns
an html file and a support directory; both land in the file list. -/
theorem c4_fused_validate_then_summarize_witness :
    validate ⟨.ok ["s1"], .ok [], .ok [], .ok ""⟩ (fun _ => ["s1"])
        (fun _ => []) (fun _ _ => .ok ("index.html", some "support_files"))
        ⟨some 1, none, [("plain_text", ["dm.txt"])], "distance_matrix"⟩ =
      .ok (true, some [⟨none, "distance_matrix",
        [("dm.txt", "plain_text"), ("index.html", "html_summary"),
         ("support_files", "html_summary_dir")]⟩], "") :=
  (c4_fused_validate_then_summarize ⟨.ok ["s1"], .ok [], .ok [], .ok ""⟩
      (fun _ => ["s1"]) (fun _ => [])
      (fun _ _ => .ok ("index.html", some "support_files"))
      ⟨some 1, none, [("plain_text", ["dm.txt"])], "distance_matrix"⟩
      ["s1"] ⟨none, "distance_matrix", [("dm.txt", "plain_text")]⟩ [] ""
      (by decide) rfl (by decide)).1 "index.html" (some "support_files") rfl

/-- Claim C5 (amended): in `generate_html_summary`, the value persisted
via the patch call is the JSON object with keys `html` and `dir` when
the renderer returned a truthy (non-None and non-empty) auxiliary
directory, and the bare HTML path when it returned None; a raising
patch call is caught and yields `(False, None, str(exception))`, while
an exception from the renderer itself propagates. -/
theorem c5_summary_persistence (art : ArtifactRecord)
    (prepMeta analysisMeta : Nat → List String)
    (render : List String → Except PyExn (String × Option String))
    (patchExn : String → Option String) (metadata : List String)
    (ht : art.artifact_type ∈ summarizerKeys)
    (hm : metaResolveSummary prepMeta analysisMeta art.prep_information
          art.analysis = some metadata) :
    (∀ (html_fp d : String),
        render metadata = .ok (html_fp, some d) → d ≠ "" →
        generate_html_summary art prepMeta analysisMeta render patchExn =
          (match patchExn (dumpsHtmlDir html_fp d) with
           | none => .ok (true, none, "")
           | some m => .ok (false, none, m))) ∧
    (∀ html_fp : String,
        render metadata = .ok (html_fp, none) →
        generate_html_summary art prepMeta analysisMeta render patchExn =
          (match patchExn html_fp with
           | none => .ok (true, none, "")
           | some m => .ok (false, none, m))) ∧
    (∀ e : PyExn,
        render metadata = .error e →
        generate_html_summary art prepMeta analysisMeta render patchExn =
          .error e) := by
  refine ⟨?_, ?_, ?_⟩
  · intro html_fp d hrender hd
    have hde : d.isEmpty = false := by
      cases hde : d.isEmpty
      · rfl
      · rw [String.isEmpty_iff] at hde
        exact absurd hde hd
    simp [generate_html_summary, ht, hm, hrender, hde]
  · intro html_fp hrender
    simp [generate_html_summary, ht, hm, hrender]
  · intro e hrender
    simp [generate_html_summary, ht, hm, hrender]

/-- Counterexample for C5 as stated: the code tests `if html_dir:`
(truthiness), not `is not None`; with a non-None but empty auxiliary
directory the bare HTML path is persisted instead of the JSON object.
The recording patch collaborator raises with the persisted value as
message, so the returned message exhibits the value that was patched. -/
theorem c5_summary_persistence_counterexample :
    generate_html_summary ⟨"distance_matrix", [1], none⟩ (fun _ => ["s1"])
        (fun _ => []) (fun _ => .ok ("index.html", some ""))
        (fun v => some v) =
      .ok (false, none, "index.html") ∧
    ("index.html" : String) ≠ dumpsHtmlDir "index.html" "" :=
  ⟨by decide, by decide⟩

/-- Witness for C5 (amended): a renderer with a support directory, a
succeeding patch call, and a renderer with none plus a raising patch
call. -/
theorem c5_summary_persistence_witness :
    generate_html_summary ⟨"alpha_vector", [3], some 9⟩ (fun _ => ["s1"])
        (fun _ => []) (fun _ => .ok ("index.html", some "support_files"))
        (fun _ => none) =
      .ok (true, none, "") :=
  (c5_summary_persistence ⟨"alpha_vector", [3], some 9⟩ (fun _ => ["s1"])
      (fun _ => []) (fun _ => .ok ("index.html", some "support_files"))
      (fun _ => none) ["s1"] (by decide) rfl).1 "index.html" "support_files"
    rfl (by decide)

end QtpDiversity
